import Mathlib

/-!
Shallow embedding of the animation-path and scene modules of the
asciimatics library (asciimatics/paths.py and asciimatics/scene.py),
together with theorems checking the behaviour ascribed to them.

Conventions of the embedding:
* Python `int` values are modelled by `Int`, step counts by `Nat`.
* Python `float` arithmetic is modelled by exact rationals `ℚ`; every
  theorem below depends only on control flow and list structure, never on
  a rounded value, so this idealisation is harmless here.
* A Python method that can raise (IndexError, ZeroDivisionError,
  ValueError) is modelled with `Option`, `none` standing for the raise.
* In-place mutation of `self` is modelled by explicit state passing on a
  state structure; the one in-place mutation of a caller-supplied list
  (in `move_round_to`) is modelled by returning the list as it stands
  after the call (`roundPad`).
-/

/-- Python `int()` applied to an exact rational: truncation toward zero. -/
def pyInt (q : ℚ) : Int := q.num.tdiv (q.den : Int)

/-- Catmull-Rom cubic spline from paths.py: interpolates 4 given points,
computed over exact rationals. -/
def _spline (t p0 p1 p2 p3 : ℚ) : ℚ :=
  (t * ((2 - t) * t - 1) * p0 + (t * t * (3 * t - 5) + 2) * p1 +
      t * ((4 - 3 * t) * t + 1) * p2 + (t - 1) * t * t * p3) / 2

/-- The mutable state of a `Path` object: the recorded steps, the playback
cursor `_index`, and the last recorded position `_rec_x`/`_rec_y`. -/
structure PathState where
  steps : List (Int × Int)
  index : Nat
  rec_x : Int
  rec_y : Int
deriving DecidableEq

/-- `Path.__init__`: empty step list, cursor 0, recorded position (0, 0)
(`reset()` is called at the end of `__init__` and sets `_index = 0`). -/
def Path.init : PathState := { steps := [], index := 0, rec_x := 0, rec_y := 0 }

/-- `Path.reset`: rewind the playback cursor. -/
def PathState.reset (p : PathState) : PathState := { p with index := 0 }

/-- `Path.next_pos`: if `_index <= len(_steps)` read `_steps[_index]` and
advance the cursor, else read `_steps[-1]`.  `none` models the IndexError
raised when the read is out of range (in the first branch this happens
exactly when `_index == len(_steps)`; in the second when the list is
empty). -/
def PathState.next_pos (p : PathState) : Option ((Int × Int) × PathState) :=
  if p.index ≤ p.steps.length then
    match p.steps.get? p.index with
    | some r => some (r, { p with index := p.index + 1 })
    | none => none
  else
    match p.steps.getLast? with
    | some r => some (r, p)
    | none => none

/-- `Path.is_finished`: whether the cursor has reached the end. -/
def PathState.is_finished (p : PathState) : Bool := p.steps.length ≤ p.index

/-- `Path._add_step`: append a position and record it as the last position. -/
def PathState._add_step (p : PathState) (pos : Int × Int) : PathState :=
  { p with steps := p.steps ++ [pos], rec_x := pos.1, rec_y := pos.2 }

/-- `Path.wait`: append the current recorded position `delay` times. -/
def PathState.wait (p : PathState) (delay : Nat) : PathState :=
  match delay with
  | 0 => p
  | Nat.succ n => (p._add_step (p.rec_x, p.rec_y)).wait n

/-- `Path.jump_to`: append the target position directly. -/
def PathState.jump_to (p : PathState) (x y : Int) : PathState := p._add_step (x, y)

/-- `Path.move_straight_to`: for i = 1..steps append the truncated linear
interpolation from the saved start position toward (x, y); the start is
read once before the loop. -/
def PathState.move_straight_to (p : PathState) (x y : Int) (steps : Nat) : PathState :=
  (List.range' 1 steps).foldl (fun q i =>
    q._add_step
      (pyInt ((p.rec_x : ℚ) + ((x : ℚ) - (p.rec_x : ℚ)) / (steps : ℚ) * (i : ℚ)),
       pyInt ((p.rec_y : ℚ) + ((y : ℚ) - (p.rec_y : ℚ)) / (steps : ℚ) * (i : ℚ)))) p

/-- The caller-supplied `points` list as `move_round_to` leaves it: the
current recorded position is inserted twice at index 0, then the current
final element is appended again.  This mutation happens before anything
can raise, so it describes the caller's list after every call. -/
def roundPad (p : PathState) (points : List (Int × Int)) : List (Int × Int) :=
  ((p.rec_x, p.rec_y) :: (p.rec_x, p.rec_y) :: points) ++
    [((p.rec_x, p.rec_y) :: (p.rec_x, p.rec_y) :: points).getLastD (p.rec_x, p.rec_y)]

/-- The interpolated positions `move_round_to` appends, given the padded
point list and `steps_per_spline`: for j = 1..len(points)-3 and
t = 1..steps_per_spline, one spline sample each.  (The loop body reads
only the padded list, `t` and `steps_per_spline`, so the samples do not
depend on the evolving path state.) -/
def splineSteps (pts : List (Int × Int)) (sps : Nat) : List (Int × Int) :=
  (List.range' 1 (pts.length - 3)).foldl (fun acc j =>
    (List.range' 1 sps).foldl (fun acc t =>
      acc ++
        [(pyInt (((pts.getD j (0, 0)).1 : ℚ) +
            (((pts.getD (j + 1) (0, 0)).1 : ℚ) - ((pts.getD j (0, 0)).1 : ℚ)) *
              (t : ℚ) / (sps : ℚ)),
          pyInt (_spline ((t : ℚ) / (sps : ℚ))
            ((pts.getD (j - 1) (0, 0)).2 : ℚ)
            ((pts.getD j (0, 0)).2 : ℚ)
            ((pts.getD (j + 1) (0, 0)).2 : ℚ)
            ((pts.getD (j + 2) (0, 0)).2 : ℚ)))]) acc) []

/-- Append a list of positions through `_add_step` in order. -/
def PathState.addSteps (p : PathState) (l : List (Int × Int)) : PathState :=
  l.foldl PathState._add_step p

/-- `Path.move_round_to` on the path state: after padding the points,
`steps_per_spline = steps // (len(points) - 3)`; `none` models the
ZeroDivisionError raised when the padded list has length 3 (no waypoints
were supplied); otherwise every spline sample is appended. -/
def PathState.move_round_to (p : PathState) (points : List (Int × Int)) (steps : Nat) :
    Option PathState :=
  if (roundPad p points).length - 3 = 0 then none
  else some (p.addSteps (splineSteps (roundPad p points) (steps / ((roundPad p points).length - 3))))

/-- C3: the spline passes exactly through p1 at t = 0 and p2 at t = 1. -/
theorem spline_endpoint_interpolation (p0 p1 p2 p3 : ℚ) :
    _spline 0 p0 p1 p2 p3 = p1 ∧ _spline 1 p0 p1 p2 p3 = p2 := by
  constructor <;> (unfold _spline; ring)

/-- C1: on a path with one recorded step, after reset the first call to
next_pos returns that step, but the second call reads `_steps[1]` on a
one-element list and raises IndexError (modelled by `none`), instead of
freezing at the last step as specified: the `<=` bound makes the
freeze branch unreachable. -/
theorem next_pos_overrun_indexerror :
    ((Path.init.jump_to 1 2).reset).next_pos =
      some ((1, 2), { steps := [(1, 2)], index := 1, rec_x := 1, rec_y := 2 }) ∧
    PathState.next_pos { steps := [(1, 2)], index := 1, rec_x := 1, rec_y := 2 } = none :=
  ⟨rfl, rfl⟩

/-- An effect as the Scene duration logic sees it: an identifying tag (so
two effects with equal stop frames stay distinguishable, as distinct
Python objects are) and its `stop_frame`. -/
structure Effect where
  tag : Nat
  stop_frame : Int
deriving DecidableEq

/-- The state of a `Scene` object. -/
structure SceneState where
  effects : List Effect
  duration : Int
  clear : Bool
  name : Option String
deriving DecidableEq

/-- Python `max(x.stop_frame for x in effects)`: `none` models the
ValueError raised on an empty sequence. -/
def maxStopFrame : List Effect → Option Int
  | [] => none
  | e :: es => some (es.foldl (fun m f => max m f.stop_frame) e.stop_frame)

/-- `Scene.__init__`: the effects are appended in order; when `duration`
is 0 it is replaced by the maximum stop frame of the supplied effects,
which raises (`none`) when the list is empty. -/
def Scene.mk? (effects : List Effect) (duration : Int) (clear : Bool) (name : Option String) :
    Option SceneState :=
  if duration = 0 then
    match maxStopFrame effects with
    | none => none
    | some m => some { effects := effects, duration := m, clear := clear, name := name }
  else
    some { effects := effects, duration := duration, clear := clear, name := name }

/-- `Scene.add_effect`: append the effect (the reset and register-scene
calls touch only the effect, not the scene fields modelled here). -/
def SceneState.add_effect (s : SceneState) (e : Effect) : SceneState :=
  { s with effects := s.effects ++ [e] }

/-- `Scene.remove_effect`: `list.remove` drops the first occurrence and
raises ValueError (`none`) when the effect is absent. -/
def SceneState.remove_effect (s : SceneState) (e : Effect) : Option SceneState :=
  if e ∈ s.effects then some { s with effects := s.effects.erase e } else none

/-- The loop of `Scene.process_event` over the reversed effect list, each
effect's own process_event modelled as a function to `Option`: on `None`
the loop breaks before the assignment, so the loop variable still holds
the event that was passed to the consuming effect. -/
def processEventLoop {α : Type} : List (α → Option α) → α → α
  | [], event => event
  | f :: rest, event =>
    match f event with
    | none => event
    | some newEvent => processEventLoop rest newEvent

/-- `Scene.process_event`: iterate the effects in reverse registration
order; the returned value is the loop variable, which always holds a
real event (never `None`, because the loop breaks before assigning). -/
def Scene.process_event {α : Type} (effects : List (α → Option α)) (event : α) : Option α :=
  some (processEventLoop effects.reverse event)

/-- Length of a padded point list: three more than the points supplied. -/
theorem roundPad_length (p : PathState) (points : List (Int × Int)) :
    (roundPad p points).length = points.length + 3 := by
  simp [roundPad]

/-- A fold whose body ignores the list element and returns the
accumulator is the identity. -/
theorem foldl_const {α β : Type} (l : List β) (q : α) :
    l.foldl (fun a _ => a) q = q := by
  induction l generalizing q with
  | nil => rfl
  | cons b l ih => exact ih q

/-- With steps_per_spline 0 the inner loop body never runs, so no spline
sample is produced. -/
theorem splineSteps_zero (pts : List (Int × Int)) : splineSteps pts 0 = [] := by
  simp only [splineSteps, List.range'_zero, List.foldl_nil]
  exact foldl_const _ _

/-- C2: when an effect's process_event returns None, Scene.process_event
returns the event that effect was given, not None.  With one consuming
effect the original event comes back; in the three-effect scene (bottom
adds 100, middle consumes, top adds 1) the top-transformed event 6 comes
back — so the middle consumed it, the bottom never ran, and yet the
caller receives an event instead of None. -/
theorem process_event_consumed_returns_event :
    Scene.process_event [fun _ => none] (0 : Nat) = some 0 ∧
    Scene.process_event
      [fun e => some (e + 100), fun _ => none, fun e => some (e + 1)] (5 : Nat) = some 6 :=
  ⟨rfl, rfl⟩

/-- C9: move_round_to leaves the caller's points list three elements
longer: the recorded position twice at the front, then the original
list, then a duplicate of its final element (the recorded position again
when no waypoint was supplied). -/
theorem move_round_to_pads_points (p : PathState) (points : List (Int × Int)) :
    (roundPad p points).length = points.length + 3 ∧
    (roundPad p points).take 2 = [(p.rec_x, p.rec_y), (p.rec_x, p.rec_y)] ∧
    (roundPad p points).drop 2 = points ++ [points.getLastD (p.rec_x, p.rec_y)] := by
  refine ⟨roundPad_length p points, rfl, ?_⟩
  simp only [roundPad, List.cons_append, List.drop_succ_cons, List.drop_zero,
    List.getLastD_cons]

/-- C5 counterexample: one supplied waypoint is fewer than 2, yet
move_round_to raises nothing and silently appends 6 interpolated steps. -/
theorem move_round_to_one_waypoint_no_error :
    (Path.init.move_round_to [(4, 4)] 6).isSome = true ∧
    Option.map (fun q => q.steps.length) (Path.init.move_round_to [(4, 4)] 6) = some 6 :=
  ⟨rfl, rfl⟩

/-- C5 amended: move_round_to checks no waypoint count.  One supplied
waypoint succeeds silently; zero supplied waypoints raise
ZeroDivisionError (the padded list has length 3, so the divisor
len(points) - 3 is 0), never an explicit insufficient-waypoints error. -/
theorem move_round_to_no_waypoint_check (p : PathState) (w : Int × Int) (steps : Nat) :
    (p.move_round_to [w] steps).isSome = true ∧ p.move_round_to [] steps = none :=
  ⟨rfl, rfl⟩

/-- C6 counterexample: steps = 0 makes move_straight_to return with the
path unchanged and move_round_to succeed with the path unchanged; neither
raises anything. -/
theorem zero_steps_silent_success :
    Path.init.move_straight_to 10 0 0 = Path.init ∧
    Path.init.move_round_to [(1, 1), (2, 2)] 0 = some Path.init :=
  ⟨rfl, rfl⟩

/-- C6 amended: with steps = 0 both builders validate nothing: their loop
ranges are empty, so move_straight_to appends no step, and move_round_to
(given at least one waypoint) appends no step and raises no error. -/
theorem zero_steps_appends_nothing (p : PathState) (x y : Int)
    (pts : List (Int × Int)) (h : pts ≠ []) :
    p.move_straight_to x y 0 = p ∧ p.move_round_to pts 0 = some p := by
  refine ⟨rfl, ?_⟩
  have hd : (roundPad p pts).length - 3 ≠ 0 := by
    rw [roundPad_length]
    cases pts with
    | nil => exact absurd rfl h
    | cons a rest => simp [List.length_cons]
  unfold PathState.move_round_to
  rw [if_neg hd, Nat.zero_div, splineSteps_zero]
  rfl

theorem zero_steps_appends_nothing_witness :
    ([(3, 4)] : List (Int × Int)) ≠ [] ∧
    ((Path.init.jump_to 5 6).move_straight_to 9 9 0 = Path.init.jump_to 5 6 ∧
      (Path.init.jump_to 5 6).move_round_to [(3, 4)] 0 = some (Path.init.jump_to 5 6)) :=
  ⟨by decide, zero_steps_appends_nothing (Path.init.jump_to 5 6) 9 9 [(3, 4)] (by decide)⟩

/-- C7: constructing a Scene from an empty effect list with the default
duration 0 raises (max over an empty sequence), while any explicit
non-zero duration (such as -1) succeeds. -/
theorem scene_empty_effects_duration (d : Int) (h : d ≠ 0) :
    Scene.mk? [] 0 true none = none ∧ (Scene.mk? [] d true none).isSome = true := by
  refine ⟨rfl, ?_⟩
  unfold Scene.mk?
  rw [if_neg h]
  rfl

theorem scene_empty_effects_duration_witness :
    ((-1 : Int) ≠ 0) ∧
    (Scene.mk? [] 0 true none = none ∧ (Scene.mk? [] (-1) true none).isSome = true) :=
  ⟨by decide, scene_empty_effects_duration (-1) (by decide)⟩

/-- C8: a Scene built with duration 0 over a non-empty effect list gets
the maximum stop_frame of the construction-time effects as its duration,
and neither add_effect nor a successful remove_effect changes it. -/
theorem scene_duration_derived_once (effects : List Effect) (h : effects ≠ [])
    (s : SceneState) (hs : Scene.mk? effects 0 true none = some s)
    (e : Effect) (s' : SceneState) (hr : s.remove_effect e = some s') :
    maxStopFrame effects = some s.duration ∧
    (s.add_effect e).duration = s.duration ∧
    s'.duration = s.duration := by
  cases effects with
  | nil => exact absurd rfl h
  | cons f es =>
    unfold Scene.mk? at hs
    rw [if_pos rfl] at hs
    have hs2 : some (SceneState.mk (f :: es)
        (es.foldl (fun m g => max m g.stop_frame) f.stop_frame) true none) = some s := hs
    have hs3 := Option.some.inj hs2
    subst hs3
    refine ⟨rfl, rfl, ?_⟩
    unfold SceneState.remove_effect at hr
    split at hr
    · rw [← Option.some.inj hr]
    · exact Option.noConfusion hr

theorem scene_duration_derived_once_witness :
    maxStopFrame [⟨0, 5⟩, ⟨1, 9⟩] =
      some (SceneState.duration ⟨[⟨0, 5⟩, ⟨1, 9⟩], 9, true, none⟩) ∧
    (SceneState.add_effect ⟨[⟨0, 5⟩, ⟨1, 9⟩], 9, true, none⟩ ⟨1, 9⟩).duration =
      SceneState.duration ⟨[⟨0, 5⟩, ⟨1, 9⟩], 9, true, none⟩ ∧
    SceneState.duration ⟨[⟨0, 5⟩], 9, true, none⟩ =
      SceneState.duration ⟨[⟨0, 5⟩, ⟨1, 9⟩], 9, true, none⟩ :=
  scene_duration_derived_once [⟨0, 5⟩, ⟨1, 9⟩] (by decide)
    ⟨[⟨0, 5⟩, ⟨1, 9⟩], 9, true, none⟩ (by decide) ⟨1, 9⟩
    ⟨[⟨0, 5⟩], 9, true, none⟩ (by decide)

/-- Waiting appends copies of the current recorded position and leaves
that position unchanged. -/
theorem wait_steps (p : PathState) (d : Nat) :
    (p.wait d).steps = p.steps ++ List.replicate d (p.rec_x, p.rec_y) := by
  induction d generalizing p with
  | zero => simp [PathState.wait]
  | succ n ih =>
    have hstep : p.wait (n + 1) = (p._add_step (p.rec_x, p.rec_y)).wait n := rfl
    rw [hstep, ih]
    simp [PathState._add_step, List.replicate_succ, List.append_assoc]

/-- C10: a fresh Path has recorded position (0, 0) and no steps, so the
first builder call measures from the origin: for example wait appends
copies of (0, 0). -/
theorem fresh_path_starts_at_origin (d : Nat) :
    Path.init.rec_x = 0 ∧ Path.init.rec_y = 0 ∧ Path.init.steps = [] ∧
    (Path.init.wait d).steps = List.replicate d (0, 0) :=
  ⟨rfl, rfl, rfl, wait_steps Path.init d⟩
